import Mathlib

/-!
Verification of the ReportStepMessage (EditorBugStep) Vue component,
web/server/vue-cli/src/components/Report/ReportStepMessage.vue.

The component is embedded shallowly.  Props become a structure over an
abstract neighbor type; the computed properties `color` and `textColor`
become pure functions on the optional `type` prop (the JS switch on
`this.type` is a chain of strict string comparisons falling through to a
default arm, so `null` and every unrecognized string take the default
arm); the methods `showPrevReport` / `showNextReport` become state
transformers that return the (unchanged) props together with the list of
events published on the bus during the call; the template conditions
`v-if="prevStep"` / `v-if="nextStep"` become boolean render predicates
(a prop declared `type: Object, default: null` is truthy exactly when it
is a non-null object, i.e. when the option is `some`).
-/

namespace ReportStepMessage

/-- An event published on the bus by `this.bus.$emit(name, payload)`.
Both navigation methods pass the neighbor step object itself as the sole
payload argument. -/
structure EmittedEvent (α : Type) where
  name : String
  payload : α
  deriving DecidableEq, Repr

/-- The props of the component, from the `props:` block of the source.
`id` and `index` admit String or Number in the source and are used for
display only; they are modelled with representative types.  `bus`,
`prevStep` and `nextStep` are objects defaulting to null; for `bus` only
its presence matters to the logic (the component never reads it, only
publishes), so it is modelled by a Bool, while the two optional neighbor
objects are options over an abstract neighbor type. -/
structure Props (α : Type) where
  id : String
  value : String
  marginLeft : String
  type : Option String
  index : Option Nat
  bus : Bool
  prevStep : Option α
  nextStep : Option α
  deriving Repr

/-- Computed property `color()`: switch on `this.type` with cases
"error", "fixit", "macro", "note" and a default arm. -/
def color (type : Option String) : String :=
  match type with
  | some "error" => "#f2dede"
  | some "fixit" => "#fcf8e3"
  | some "macro" => "#d7dac2"
  | some "note" => "#d7d7d7"
  | _ => "#bfdfe9"

/-- Computed property `textColor()`: switch on `this.type` with cases
"error", "fixit", "macro", "note" and a default arm. -/
def textColor (type : Option String) : String :=
  match type with
  | some "error" => "#a94442"
  | some "fixit" => "#8a6d3b"
  | some "macro" => "#4f5c6d"
  | some "note" => "#4f5c6d"
  | _ => "#00546f"

/-- The (background, text) color pair the chip is rendered with: the
template binds `:color="color"` and `:text-color="textColor"`, both
computed from `this.type`. -/
def chipStyle {α : Type} (p : Props α) : String × String :=
  (color p.type, textColor p.type)

/-- Method `showPrevReport()`: if `this.prevStep && this.bus`, emit
"jpmToPrevReport" with `this.prevStep` as payload; otherwise do nothing.
The method assigns to no field, so the props come back unchanged; the
second component collects the events published during the call. -/
def showPrevReport {α : Type} (p : Props α) : Props α × List (EmittedEvent α) :=
  match p.prevStep, p.bus with
  | some s, true => (p, [⟨"jpmToPrevReport", s⟩])
  | _, _ => (p, [])

/-- Method `showNextReport()`: if `this.nextStep && this.bus`, emit
"jpmToNextReport" with `this.nextStep` as payload; otherwise do nothing. -/
def showNextReport {α : Type} (p : Props α) : Props α × List (EmittedEvent α) :=
  match p.nextStep, p.bus with
  | some s, true => (p, [⟨"jpmToNextReport", s⟩])
  | _, _ => (p, [])

/-- Template: the left chevron button carries `v-if="prevStep"`, so it
is rendered exactly when the `prevStep` object is truthy (non-null). -/
def prevBtnRendered {α : Type} (p : Props α) : Bool :=
  p.prevStep.isSome

/-- Template: the right chevron button carries `v-if="nextStep"`, so it
is rendered exactly when the `nextStep` object is truthy (non-null). -/
def nextBtnRendered {α : Type} (p : Props α) : Bool :=
  p.nextStep.isSome

/-- Navigation direction, the vocabulary the specification uses for the
two navigation actions. -/
inductive Direction where
  | backward
  | forward
  deriving DecidableEq, Repr

/-- The reverse of a direction. -/
def Direction.opposite : Direction → Direction
  | backward => forward
  | forward => backward

/-- The neighbor prop that belongs to a direction: `prevStep` for
backward, `nextStep` for forward. -/
def neighborFor {α : Type} (d : Direction) (p : Props α) : Option α :=
  match d with
  | Direction.backward => p.prevStep
  | Direction.forward => p.nextStep

/-- The navigation action that belongs to a direction: `showPrevReport`
for backward, `showNextReport` for forward. -/
def invokeNav {α : Type} (d : Direction) (p : Props α) : Props α × List (EmittedEvent α) :=
  match d with
  | Direction.backward => showPrevReport p
  | Direction.forward => showNextReport p

/-- The render predicate of the control that belongs to a direction. -/
def navBtnRendered {α : Type} (d : Direction) (p : Props α) : Bool :=
  match d with
  | Direction.backward => prevBtnRendered p
  | Direction.forward => nextBtnRendered p

/-- A navigation event in the vocabulary of the specification: a named
event carrying a target neighbor and a direction field. -/
structure SpecEvent (α : Type) where
  name : String
  target : α
  direction : Direction
  deriving DecidableEq, Repr

/-- Modelled from the spec: section 6 states that the source publishes
one distinct event name per direction and that a single
"navigate-to-step" event with a direction field is the equivalent
spec-level view of these.  This function is that documented
correspondence: a concrete "jpmToPrevReport" event is read as
"navigate-to-step" with direction backward, a concrete "jpmToNextReport"
event as "navigate-to-step" with direction forward, and in both cases
the target is the concrete payload. -/
def interpEvent {α : Type} (e : EmittedEvent α) : Option (SpecEvent α) :=
  if e.name = "jpmToPrevReport" then
    some ⟨"navigate-to-step", e.payload, Direction.backward⟩
  else if e.name = "jpmToNextReport" then
    some ⟨"navigate-to-step", e.payload, Direction.forward⟩
  else
    none

/-- The spec-level reading of a published event list. -/
def interpEvents {α : Type} (es : List (EmittedEvent α)) : List (SpecEvent α) :=
  es.filterMap interpEvent

end ReportStepMessage

namespace ReportStepMessage

/-- C2: for every category value in {error, fixit, macro, note}, the
style mapping returns exactly the (background, text) color pair of the
table in section 4.1 of the spec. -/
theorem known_categories_match_table :
    (color (some "error"), textColor (some "error")) = ("#f2dede", "#a94442") ∧
    (color (some "fixit"), textColor (some "fixit")) = ("#fcf8e3", "#8a6d3b") ∧
    (color (some "macro"), textColor (some "macro")) = ("#d7dac2", "#4f5c6d") ∧
    (color (some "note"), textColor (some "note")) = ("#d7d7d7", "#4f5c6d") :=
  ⟨rfl, rfl, rfl, rfl⟩

/-- C3: for every category value not in {error, fixit, macro, note},
including absent (none) and the empty string, the style mapping returns
the default pair (#bfdfe9, #00546f); the mapping is a total function, so
no input raises an error. -/
theorem unknown_category_default (t : Option String)
    (h : t ≠ some "error" ∧ t ≠ some "fixit" ∧ t ≠ some "macro" ∧ t ≠ some "note") :
    color t = "#bfdfe9" ∧ textColor t = "#00546f" := by
  obtain ⟨h1, h2, h3, h4⟩ := h
  constructor
  · unfold color
    split
    · exact absurd rfl h1
    · exact absurd rfl h2
    · exact absurd rfl h3
    · exact absurd rfl h4
    · rfl
  · unfold textColor
    split
    · exact absurd rfl h1
    · exact absurd rfl h2
    · exact absurd rfl h3
    · exact absurd rfl h4
    · rfl

/-- C3 witness: the garbage category "unspecified-garbage" is none of
the four known categories and resolves to the default pair. -/
theorem unknown_category_default_witness :
    color (some "unspecified-garbage") = "#bfdfe9" ∧
    textColor (some "unspecified-garbage") = "#00546f" :=
  unknown_category_default (some "unspecified-garbage")
    ⟨by decide, by decide, by decide, by decide⟩

/-- C1: for every direction d, if the neighbor belonging to d is
present and the signaling channel (bus) is present, invoking the
navigation action for d publishes, in the spec-level reading, exactly
one "navigate-to-step" event whose target is that neighbor and whose
direction is d, and publishes no event read with the opposite
direction. -/
theorem nav_publishes_single_spec_event {α : Type} (p : Props α) (d : Direction) (s : α)
    (hn : neighborFor d p = some s) (hb : p.bus = true) :
    interpEvents (invokeNav d p).2 = [⟨"navigate-to-step", s, d⟩] ∧
    (interpEvents (invokeNav d p).2).filter
      (fun e => e.direction = d.opposite) = [] := by
  cases d <;> simp only [neighborFor] at hn <;>
    simp [invokeNav, showPrevReport, showNextReport, hn, hb,
      interpEvents, interpEvent, List.filterMap, List.filter, Direction.opposite]

/-- C1 witness: with neighbor 7 present backward and the bus present,
invoking the backward action publishes exactly the one backward
"navigate-to-step" event targeting 7, and no forward event. -/
theorem nav_publishes_single_spec_event_witness :
    interpEvents (invokeNav Direction.backward
      (⟨"s1", "msg", "", some "error", some 0, true, some 7, none⟩ : Props Nat)).2 =
      [⟨"navigate-to-step", 7, Direction.backward⟩] ∧
    (interpEvents (invokeNav Direction.backward
      (⟨"s1", "msg", "", some "error", some 0, true, some 7, none⟩ : Props Nat)).2).filter
      (fun e => e.direction = Direction.backward.opposite) = [] :=
  nav_publishes_single_spec_event
    (⟨"s1", "msg", "", some "error", some 0, true, some 7, none⟩ : Props Nat)
    Direction.backward 7 rfl rfl

/-- C4: when the bus is absent, invoking either navigation action
publishes zero events, regardless of the neighbors; both methods are
total functions, so no error is raised. -/
theorem no_bus_no_events {α : Type} (p : Props α) (h : p.bus = false) :
    (showPrevReport p).2 = [] ∧ (showNextReport p).2 = [] := by
  cases hp : p.prevStep <;> cases hq : p.nextStep <;>
    simp [showPrevReport, showNextReport, h, hp, hq]

/-- C4 witness: with both neighbors present but the bus absent, neither
action publishes anything. -/
theorem no_bus_no_events_witness :
    (showPrevReport (⟨"s1", "msg", "", none, none, false, some 3, some 4⟩ : Props Nat)).2 = [] ∧
    (showNextReport (⟨"s1", "msg", "", none, none, false, some 3, some 4⟩ : Props Nat)).2 = [] :=
  no_bus_no_events (⟨"s1", "msg", "", none, none, false, some 3, some 4⟩ : Props Nat) rfl

/-- C5: when the neighbor belonging to a direction is absent, invoking
the navigation action of that direction publishes zero events. -/
theorem no_neighbor_no_events {α : Type} (p : Props α) (d : Direction)
    (h : neighborFor d p = none) :
    (invokeNav d p).2 = [] := by
  cases d <;> simp only [neighborFor] at h <;>
    simp [invokeNav, showPrevReport, showNextReport, h]

/-- C5 witness: with the backward neighbor absent and the bus present,
the backward action publishes nothing. -/
theorem no_neighbor_no_events_witness :
    (invokeNav Direction.backward
      (⟨"s1", "msg", "", none, none, true, none, some 4⟩ : Props Nat)).2 = [] :=
  no_neighbor_no_events
    (⟨"s1", "msg", "", none, none, true, none, some 4⟩ : Props Nat)
    Direction.backward rfl

/-- C6: for every direction, the navigation control is rendered exactly
when the neighbor belonging to that direction is present; absence of
the neighbor removes the control. -/
theorem nav_control_rendered_iff_neighbor {α : Type} (p : Props α) (d : Direction) :
    navBtnRendered d p = true ↔ ∃ s, neighborFor d p = some s := by
  cases d <;>
    simp [navBtnRendered, prevBtnRendered, nextBtnRendered, neighborFor,
      Option.isSome_iff_exists]

/-- C7: the style mapping is a deterministic function of the category
input alone: any two prop records with equal type fields, even over
different neighbor types, render the same (background, text) pair. -/
theorem style_deterministic {α β : Type} (p : Props α) (q : Props β)
    (h : p.type = q.type) :
    chipStyle p = chipStyle q := by
  unfold chipStyle
  rw [h]

/-- C7 witness: two distinct prop records with the same category render
the same pair. -/
theorem style_deterministic_witness :
    chipStyle (⟨"s1", "a", "", some "note", none, true, some 1, none⟩ : Props Nat) =
    chipStyle (⟨"s2", "b", "4px", some "note", some 9, false, none, some 2⟩ : Props Nat) :=
  style_deterministic
    (⟨"s1", "a", "", some "note", none, true, some 1, none⟩ : Props Nat)
    (⟨"s2", "b", "4px", some "note", some 9, false, none, some 2⟩ : Props Nat) rfl

/-- C8: the navigation methods never mutate the supplied props (steps
and neighbor references come back unchanged); in this embedding their
whole effect is the returned event list, and the style computation and
the render predicates are plain functions of the props with no state at
all. -/
theorem nav_does_not_mutate_props {α : Type} (p : Props α) (d : Direction) :
    (invokeNav d p).1 = p := by
  cases d <;> cases hp : p.prevStep <;> cases hq : p.nextStep <;>
    cases hb : p.bus <;>
    simp [invokeNav, showPrevReport, showNextReport, hp, hq, hb]

/-- C9: the visibility of a navigation control depends only on the
presence of its neighbor, not on the bus: with the neighbor present and
the bus absent, the control is still rendered, and invoking its action
publishes nothing. -/
theorem rendered_but_inert_without_bus {α : Type} (p : Props α) (d : Direction) (s : α)
    (hn : neighborFor d p = some s) (hb : p.bus = false) :
    navBtnRendered d p = true ∧ (invokeNav d p).2 = [] := by
  cases d <;> simp only [neighborFor] at hn <;>
    simp [navBtnRendered, prevBtnRendered, nextBtnRendered, invokeNav,
      showPrevReport, showNextReport, hn, hb]

/-- C9 witness: forward neighbor 5 present, bus absent: the forward
control is rendered and its action publishes nothing. -/
theorem rendered_but_inert_without_bus_witness :
    navBtnRendered Direction.forward
      (⟨"s1", "msg", "", none, none, false, none, some 5⟩ : Props Nat) = true ∧
    (invokeNav Direction.forward
      (⟨"s1", "msg", "", none, none, false, none, some 5⟩ : Props Nat)).2 = [] :=
  rendered_but_inert_without_bus
    (⟨"s1", "msg", "", none, none, false, none, some 5⟩ : Props Nat)
    Direction.forward 5 rfl rfl

/-- C10: with the bus present, the backward action publishes exactly
one event named "jpmToPrevReport" and the forward action exactly one
event named "jpmToNextReport"; the two names are distinct, and in each
case the sole payload is the neighbor object itself, unwrapped. -/
theorem concrete_event_names {α : Type} (p : Props α) (s t : α)
    (hb : p.bus = true) (hp : p.prevStep = some s) (hq : p.nextStep = some t) :
    (showPrevReport p).2 = [⟨"jpmToPrevReport", s⟩] ∧
    (showNextReport p).2 = [⟨"jpmToNextReport", t⟩] ∧
    "jpmToPrevReport" ≠ "jpmToNextReport" := by
  refine ⟨?_, ?_, by decide⟩ <;>
    simp [showPrevReport, showNextReport, hb, hp, hq]

/-- C10 witness: with neighbors 3 and 4 and the bus present, the two
actions publish the two distinctly named events carrying 3 and 4. -/
theorem concrete_event_names_witness :
    (showPrevReport (⟨"s1", "msg", "", none, none, true, some 3, some 4⟩ : Props Nat)).2 =
      [⟨"jpmToPrevReport", 3⟩] ∧
    (showNextReport (⟨"s1", "msg", "", none, none, true, some 3, some 4⟩ : Props Nat)).2 =
      [⟨"jpmToNextReport", 4⟩] ∧
    "jpmToPrevReport" ≠ "jpmToNextReport" :=
  concrete_event_names
    (⟨"s1", "msg", "", none, none, true, some 3, some 4⟩ : Props Nat)
    3 4 rfl rfl rfl

end ReportStepMessage
